import Mathlib

/-!
Shallow embedding of the resolver+cache subsystem of `gocode`
(`src/internal/cache/importer.go`, plus the gbimporter variants in
`src/unnamed/part_001` and `src/unnamed/part_002`).

Conventions of the embedding:
* Go strings are Lean `String`; all path manipulation is the Unix
  (slash-separated) build, matching `samepath_unix.go` being the active
  platform file.
* `time.Time` values (modification times, insertion times) are `Int`
  nanoseconds; `time.Since t` at call time `now` is `now - t`.
* `*types.Package` is `Option Nat`: `none` is the nil pointer, a `some`
  carries an opaque descriptor identity.
* Go `error` is `Option String`: `none` is nil, `some e` a concrete error
  value, so "propagated unmodified" is expressible.
* The Go map `map[string]importCacheEntry` is an association list with the
  Go zero-value/ok lookup convention; its unspecified iteration order is
  refined to list order (the spec declares eviction order arbitrary).
* Filesystem and collaborator behaviour observed during one `ImportFrom`
  call (gcexportdata.Find, os.Stat, os.Open, gcexportdata.NewReader,
  gcexportdata.Read, the underlying resolver, the source importer) is an
  explicit per-call environment record.
-/

/-- Split a string at `/` characters (structural helper over the char list). -/
def splitSlashAux : List Char → List Char → List (List Char)
  | [], cur => [cur.reverse]
  | '/' :: rest, cur => cur.reverse :: splitSlashAux rest []
  | c :: rest, cur => splitSlashAux rest (c :: cur)

/-- The non-empty `/`-separated segments of a path string. -/
def segsOf (s : String) : List String :=
  ((splitSlashAux s.data []).map (fun l => String.mk l)).filter (fun t => t ≠ "")

/-- `strings.HasPrefix` of Go (also used by `strings.TrimPrefix`). -/
def goStartsWith (s p : String) : Bool :=
  p.data.isPrefixOf s.data

/-- `strings.TrimPrefix` of Go. -/
def trimPrefixGo (s p : String) : String :=
  if goStartsWith s p then String.mk (s.data.drop p.data.length) else s

/-- Length of a Go string (its rune/char count; all inputs here are ASCII). -/
def goLen (s : String) : Nat := s.data.length

/-- `match` from `importer.go`: trim a literal leading pattern, report whether
anything was trimmed. (Named `matchFn` because `match` is a Lean keyword.) -/
def matchFn (s p : String) : String × Bool :=
  let rest := trimPrefixGo s p
  (rest, goLen rest < goLen s)

/-- Join string segments with `/` between them. -/
def joinWith : List String → String
  | [] => ""
  | [x] => x
  | x :: y :: xs => x ++ "/" ++ joinWith (y :: xs)

/-- Segment-level core of Go `path.Clean`: drop empty and `.` segments and
resolve `..` against the accumulated prefix (absolute paths discard a `..`
at the root; relative paths keep leading `..` runs). -/
def cleanSegsAux (isAbs : Bool) : List String → List String → List String
  | [], acc => acc.reverse
  | s :: rest, acc =>
    if s = "" ∨ s = "." then cleanSegsAux isAbs rest acc
    else if s = ".." then
      match acc with
      | [] => if isAbs then cleanSegsAux isAbs rest [] else cleanSegsAux isAbs rest [".."]
      | a :: acc' =>
        if a = ".." then cleanSegsAux isAbs rest (".." :: a :: acc')
        else cleanSegsAux isAbs rest acc'
    else cleanSegsAux isAbs rest (s :: acc)

/-- Go `path.Clean` / Unix `filepath.Clean`. -/
def pathClean (p : String) : String :=
  if p = "" then "." else
  let abs := goStartsWith p "/"
  let cleaned := cleanSegsAux abs (segsOf p) []
  if cleaned = [] then (if abs then "/" else ".")
  else (if abs then "/" else "") ++ joinWith cleaned

/-- Go `path.Join` / Unix `filepath.Join`: drop empty elements, join with `/`,
then clean; all elements empty gives `""`. -/
def pathJoin (elems : List String) : String :=
  let ne := elems.filter (fun e => e ≠ "")
  if ne = [] then "" else pathClean (joinWith ne)

/-- Go `path.Dir`: everything up to and including the final `/`, cleaned;
no `/` at all gives `"."`. -/
def pathDir (p : String) : String :=
  match (p.data.reverse.findIdx? (fun c => c = '/')) with
  | none => "."
  | some iRev =>
    let keep := p.data.length - iRev
    pathClean (String.mk (p.data.take keep))

/-- Length of the common leading run of two segment lists. -/
def commonLen : List String → List String → Nat
  | a :: as', b :: bs' => if a = b then commonLen as' bs' + 1 else 0
  | _, _ => 0

/-- Go Unix `filepath.Rel` (lexical): clean both, require agreeing
absoluteness, peel the common segment run, refuse a remaining `..` in the
base, and climb with `..` segments; `none` is Go's error return. -/
def filepathRel (base targ : String) : Option String :=
  let b := pathClean base
  let t := pathClean targ
  if t = b then some "." else
  let babs := goStartsWith b "/"
  let tabs := goStartsWith t "/"
  if babs ≠ tabs then none else
  let bs := cleanSegsAux babs (segsOf b) []
  let ts := cleanSegsAux tabs (segsOf t) []
  let n := commonLen bs ts
  let brest := bs.drop n
  if brest.contains ".." then none else
  let parts := List.replicate brest.length ".." ++ ts.drop n
  if parts = [] then some "." else some (joinWith parts)

/-! ## The metadata cache (`importerCache` of `importer.go`) -/

/-- `importCacheEntry`: decoded package pointer plus validity stamp
(`mtime`, nanoseconds). The Go zero value is `⟨none, 0⟩`. -/
structure Entry where
  pkg : Option Nat
  mtime : Int
deriving DecidableEq, Repr

/-- The `map[string]importCacheEntry` cache map. -/
abbrev CacheMap := List (String × Entry)

/-- Go map read `entry, ok := m[k]`: the entry (zero value when absent)
and the presence flag. -/
def mapLookup : CacheMap → String → Entry × Bool
  | [], _ => (⟨none, 0⟩, false)
  | (k', v) :: rest, k => if k' = k then (v, true) else mapLookup rest k

/-- Go map write `m[k] = v`: replace in place or append. -/
def mapInsert : CacheMap → String → Entry → CacheMap
  | [], k, v => [(k, v)]
  | (k', v') :: rest, k, v =>
    if k' = k then (k, v) :: rest else (k', v') :: mapInsert rest k v

/-- `cleanImporter` of `importer.go` (invoked by `New`): delete entries, in
the map's (unspecified, here list-order) iteration order, until at most 100
remain. -/
def cleanImporter : CacheMap → CacheMap
  | [] => []
  | e :: rest =>
    if (e :: rest).length ≤ 100 then e :: rest else cleanImporter rest

/-! ## Shared build configuration (`go/build.Default`) -/

/-- Model of `go/build.Context` as mutated by `ImportFrom`. The fields the
code assigns are explicit; the two installed function hooks
(`SplitPathList`, `JoinPath`) are represented by identity tags (which
function value is installed); every remaining field of the real struct is
bundled untouched into `rest`. -/
structure BuildContext where
  GOARCH : String
  GOOS : String
  GOROOT : String
  GOPATH : String
  CgoEnabled : Bool
  UseAllFiles : Bool
  Compiler : String
  BuildTags : List String
  ReleaseTags : List String
  InstallSuffix : String
  SplitPathList : Nat
  JoinPath : Nat
  rest : Nat
deriving DecidableEq, Repr

/-- `PackedContext` of the cache package (the fields `ImportFrom` reads;
the defining file is outside `src/`, the field set is exactly the one the
code under `src/` dereferences). -/
structure PackedContext where
  GOARCH : String
  GOOS : String
  GOROOT : String
  GOPATH : String
  CgoEnabled : Bool
  UseAllFiles : Bool
  Compiler : String
  BuildTags : List String
  ReleaseTags : List String
  InstallSuffix : String
deriving DecidableEq, Repr

/-- The `importer` struct of `importer.go`: detected alternate (gb) root and
its vendor child, the per-call context, and an identity tag for this
importer's method values installed as path hooks. -/
structure Importer where
  gbroot : String
  gbvendor : String
  ctx : PackedContext
  hookTag : Nat
deriving DecidableEq, Repr

/-- The field assignments `def.<f> = i.ctx.<f>` (plus the gbroot GOPATH
override and hook installation) performed on `build.Default` by
`ImportFrom` before path computation. -/
def mangleDefault (i : Importer) (d : BuildContext) : BuildContext :=
  { d with
    GOPATH := if i.gbroot ≠ "" then i.gbroot else i.ctx.GOPATH
    GOARCH := i.ctx.GOARCH
    GOOS := i.ctx.GOOS
    GOROOT := i.ctx.GOROOT
    CgoEnabled := i.ctx.CgoEnabled
    UseAllFiles := i.ctx.UseAllFiles
    Compiler := i.ctx.Compiler
    BuildTags := i.ctx.BuildTags
    ReleaseTags := i.ctx.ReleaseTags
    InstallSuffix := i.ctx.InstallSuffix
    SplitPathList := i.hookTag
    JoinPath := i.hookTag }

/-! ## One `ImportFrom` call of `src/internal/cache/importer.go` -/

/-- A Go `(value, error)` pair where exactly one side is meaningful:
`error e` is a non-nil error, `ok v` a successful result. -/
inductive GoRes (α : Type) where
  | error (e : String)
  | ok (v : α)
deriving DecidableEq, Repr

/-- Result of `gcexportdata.Find(importPath, srcDir)`: artifact filename
(`""` when no artifact file was found) and the canonical package path. -/
structure FindResult where
  filename : String
  path : String
deriving DecidableEq, Repr

/-- Everything the filesystem and the collaborator resolvers answer during
one `ImportFrom` call. -/
structure CallEnv where
  find : FindResult
  stat : GoRes Int
  openRes : GoRes Unit
  readerRes : GoRes Unit
  readRes : GoRes Nat
  underlying : Option Nat × Option String
  srcImp : Option Nat × Option String
  now : Int
deriving DecidableEq, Repr

/-- The mutable state `ImportFrom` touches: the shared cache map and the
process-wide `build.Default`. -/
structure ImpState where
  imports : CacheMap
  buildDefault : BuildContext
deriving DecidableEq, Repr

/-- Observable outcome of one `ImportFrom` call: returned package and error,
the post-call cache map and `build.Default`, the configuration that was
installed while path computation ran, how many times `gcexportdata.Read`
was invoked, and whether the underlying resolver was invoked. -/
structure CallResult where
  pkg : Option Nat
  err : Option String
  imports : CacheMap
  buildDefault : BuildContext
  mangledDuringCall : BuildContext
  decodeCount : Nat
  underlyingCalled : Bool
deriving DecidableEq, Repr

/-- `time.Minute` in nanoseconds. -/
def nanosPerMinute : Int := 60 * 1000000000

/-- `time.Minute * 10`, the fallback entry age threshold in `ImportFrom`. -/
def ttlNanos : Int := 10 * nanosPerMinute

/-- `(*importer).ImportFrom` of `src/internal/cache/importer.go`, lines
86–157. `origDef` is saved first and the deferred `build.Default = origDef`
is modelled by every exit path carrying `origDef` as the final
`buildDefault`. The fallback branch (no artifact found) returns the cached
entry when `ok && time.Since(entry.mtime) >= time.Minute*10`, otherwise
invokes the underlying resolver, falls back to the source importer when it
returned nil, caches a non-nil result stamped with `now`, and returns the
underlying resolver's error. The artifact branch stats the file, re-decodes
when the stored stamp differs from the current modification time, and
propagates stat/open/reader/read errors without touching the cache. -/
def importFrom (i : Importer) (env : CallEnv) (st : ImpState) : CallResult :=
  let origDef := st.buildDefault
  let mangled := mangleDefault i st.buildDefault
  let filename := env.find.filename
  let path := env.find.path
  let lk := mapLookup st.imports path
  let entry := lk.1
  let ok := lk.2
  if filename = "" then
    let now := env.now
    if ok ∧ now - entry.mtime ≥ ttlNanos then
      ⟨entry.pkg, none, st.imports, origDef, mangled, 0, false⟩
    else
      let upkg := env.underlying.1
      let uerr := env.underlying.2
      let pkg := match upkg with
        | none => env.srcImp.1
        | some p => some p
      let imports' := match pkg with
        | some p => mapInsert st.imports path ⟨some p, now⟩
        | none => st.imports
      ⟨pkg, uerr, imports', origDef, mangled, 0, true⟩
  else
    match env.stat with
    | .error e => ⟨none, some e, st.imports, origDef, mangled, 0, false⟩
    | .ok fiMtime =>
      if entry.mtime ≠ fiMtime then
        match env.openRes with
        | .error e => ⟨none, some e, st.imports, origDef, mangled, 0, false⟩
        | .ok _ =>
          match env.readerRes with
          | .error e => ⟨none, some e, st.imports, origDef, mangled, 0, false⟩
          | .ok _ =>
            match env.readRes with
            | .error e => ⟨none, some e, st.imports, origDef, mangled, 1, false⟩
            | .ok p =>
              let entry' : Entry := ⟨some p, fiMtime⟩
              ⟨entry'.pkg, none, mapInsert st.imports path entry', origDef, mangled, 1, false⟩
      else
        ⟨entry.pkg, none, st.imports, origDef, mangled, 0, false⟩

/-- `(*importer).joinPath` of `src/internal/cache/importer.go`, lines
178–207: `filepath.Join` the elements, then, when an alternate (gb) root is
set and the result is relative to it, strip a leading `vendor/`, and if a
`pkg/<GOOS>_<GOARCH>` segment follows, reattach any `_`-suffix with a `-`
after the literal `pkg/<GOOS>-<GOARCH>/` produced by the format string. -/
def joinPath (gbroot goos goarch : String) (elem : List String) : String :=
  let res := pathJoin elem
  if gbroot ≠ "" then
    match filepathRel gbroot res with
    | some gbrel0 =>
      let gbrel1 := (matchFn gbrel0 "vendor/").1
      let m2 := matchFn gbrel1 ("pkg/" ++ goos ++ "_" ++ goarch)
      if m2.2 then
        let m3 := matchFn m2.1 "_"
        let gbrel4 := if m3.2 then "-" ++ m3.1 else m3.1
        let gbrel5 := "pkg/" ++ goos ++ "-" ++ goarch ++ "/" ++ gbrel4
        pathJoin [gbroot, gbrel5]
      else res
    | none => res
  else res

/-! ## Policy B: `tryInstallPackage` of the gbimporter variant
(`src/unnamed/part_002`, also `src/unnamed/part_001`) -/

/-- `installedInfo`: the per-source-directory record of the last newest
source modification time considered (Unix seconds, `int64`). -/
structure InstalledInfo where
  target : String
  mtime : Int
deriving DecidableEq, Repr

/-- The package-level `installedMap map[string]*installedInfo`. -/
abbrev InstalledMap := List (String × InstalledInfo)

/-- Go map read of a pointer value: `none` is the nil pointer for an
absent key (`info, ok := installedMap[target]`). -/
def imLookup : InstalledMap → String → Option InstalledInfo
  | [], _ => none
  | (k', v) :: rest, k => if k' = k then some v else imLookup rest k

/-- Go map write `installedMap[target] = &installedInfo{...}`. -/
def imInsert : InstalledMap → String → InstalledInfo → InstalledMap
  | [], k, v => [(k, v)]
  | (k', v') :: rest, k, v =>
    if k' = k then (k, v) :: rest else (k', v') :: imInsert rest k v

/-- The context fields `tryInstallPackage` reads. -/
structure GbContext where
  GOPATH : String
  GOOS : String
  GOARCH : String
deriving DecidableEq, Repr

/-- Filesystem answers observed by one `tryInstallPackage` call:
`statIsDir d` is `os.Stat(d)` succeeding with `IsDir()`; `newestGo t` is
`newest(t, ".go")` as `(mtime, error)`; `modTimeOf n` is `modTime(n)`
(Unix seconds, `0` on stat error, exactly as the Go helper returns). -/
structure InstallEnv where
  statIsDir : String → Bool
  newestGo : String → Int × Option String
  modTimeOf : String → Int

/-- The `for dir := srcDir; dir != "/" && dir != "."; dir = path.Dir(dir)`
vendor-search loop: the first `path.Join(dir, "vendor", pkgPath)` that
stats as a directory, walking `dir` upward. The `fuel` argument bounds the
recursion; the Go loop terminates because `path.Dir` shrinks its argument
to a fixpoint of `"/"` or `"."`, and callers pass fuel past that point. -/
def vendorLoop (statIsDir : String → Bool) (pkgPath : String) :
    Nat → String → Option String
  | 0, _ => none
  | fuel + 1, dir =>
    if dir = "/" ∨ dir = "." then none
    else
      let tryDir := pathJoin [dir, "vendor", pkgPath]
      if statIsDir tryDir then some tryDir
      else vendorLoop statIsDir pkgPath fuel (pathDir dir)

/-- The `target` computed by `tryInstallPackage`: the vendored candidate
found by the upward search, else `GOPATH/src/<pkgPath>`. -/
def installTarget (ctx : GbContext) (env : InstallEnv)
    (pkgPath srcDir : String) : String :=
  match vendorLoop env.statIsDir pkgPath (goLen srcDir + 2) srcDir with
  | some tryDir => tryDir
  | none => pathJoin [ctx.GOPATH, "src", pkgPath]

/-- `(*importer).tryInstallPackage` of `src/unnamed/part_002`, lines
112–143. Returns the updated `installedMap` and whether the external
`go install` command was invoked. The early `return` paths: a `newest`
error or zero mtime; an existing artifact newer than the sources (which
records the mtime without building); and a recorded, non-zero, not-older
mtime. The build is invoked only when the record is absent, zero, or older
than the current newest source mtime, and the target stats as a directory;
the record is then updated regardless of the build command's exit status. -/
def tryInstallPackage (ctx : GbContext) (env : InstallEnv)
    (m : InstalledMap) (pkgPath srcDir : String) : InstalledMap × Bool :=
  let target := installTarget ctx env pkgPath srcDir
  let nres := env.newestGo target
  let mtime := nres.1
  if nres.2.isSome ∨ mtime = 0 then (m, false)
  else
    let checkBuild :=
      match filepathRel (pathJoin [ctx.GOPATH, "src"]) target with
      | some gprel =>
        let pkgFile :=
          pathJoin [ctx.GOPATH, "pkg", ctx.GOOS ++ "_" ++ ctx.GOARCH, gprel ++ ".a"]
        let pkgMTime := env.modTimeOf pkgFile
        if pkgMTime > mtime then some (imInsert m target ⟨target, mtime⟩, false)
        else none
      | none => none
    match checkBuild with
    | some r => r
    | none =>
      let needsInstall :=
        match imLookup m target with
        | none => true
        | some info => info.mtime = 0 ∨ info.mtime < mtime
      if needsInstall then
        if env.statIsDir target then (imInsert m target ⟨target, mtime⟩, true)
        else (m, false)
      else (m, false)

/-! ## Helper lemmas and shared concrete fixtures -/

/-- A concrete `build.Default` value used by concrete evaluations. -/
def bdRef : BuildContext :=
  ⟨"amd64", "linux", "/goroot", "/gopath", false, false, "gc", [], [], "", 0, 0, 0⟩

/-- A concrete importer (no alternate root) used by concrete evaluations. -/
def impRef : Importer :=
  ⟨"", "", ⟨"amd64", "linux", "/goroot", "/gopath", false, false, "gc", [], [], ""⟩, 1⟩

/-- Looking a key up right after writing it yields the written entry. -/
theorem mapLookup_mapInsert_self (m : CacheMap) (k : String) (v : Entry) :
    mapLookup (mapInsert m k v) k = (v, true) := by
  induction m with
  | nil => simp [mapInsert, mapLookup]
  | cons hd tl ih =>
    obtain ⟨k', v'⟩ := hd
    by_cases hk : k' = k
    · simp [mapInsert, hk, mapLookup]
    · simp [mapInsert, hk, mapLookup, ih]

/-- `ImportFrom` on the artifact branch with a stale (or absent) entry and a
successful stat/open/reader/read chain: decodes once, stores the new stamp,
returns the decoded package. -/
theorem importFrom_decode_ok (i : Importer) (env : CallEnv) (st : ImpState)
    (T : Int) (p : Nat)
    (hf : env.find.filename ≠ "") (hs : env.stat = .ok T)
    (hm : (mapLookup st.imports env.find.path).1.mtime ≠ T)
    (ho : env.openRes = .ok ()) (hr : env.readerRes = .ok ())
    (hd : env.readRes = .ok p) :
    importFrom i env st =
      ⟨some p, none, mapInsert st.imports env.find.path ⟨some p, T⟩,
        st.buildDefault, mangleDefault i st.buildDefault, 1, false⟩ := by
  simp [importFrom, hf, hs, ho, hr, hd, hm]

/-- `ImportFrom` on the artifact branch with a matching stamp: a pure cache
hit, no decode, cache unchanged. -/
theorem importFrom_hit (i : Importer) (env : CallEnv) (st : ImpState) (T : Int)
    (hf : env.find.filename ≠ "") (hs : env.stat = .ok T)
    (hm : (mapLookup st.imports env.find.path).1.mtime = T) :
    importFrom i env st =
      ⟨(mapLookup st.imports env.find.path).1.pkg, none, st.imports,
        st.buildDefault, mangleDefault i st.buildDefault, 0, false⟩ := by
  simp [importFrom, hf, hs, hm]

/-! ## Claim C1 -/

/-- Concrete state for C1: one fallback cache entry for path `"p"` holding
descriptor 7, inserted at time 0. -/
def c1State : ImpState := ⟨[("p", ⟨some 7, 0⟩)], bdRef⟩

/-- A no-artifact call at time 1 ns: the cached entry is 1 ns old,
far younger than the 10-minute threshold. -/
def c1EnvFresh : CallEnv :=
  ⟨⟨"", "p"⟩, .ok 0, .ok (), .ok (), .ok 0, (some 9, none), (none, none), 1⟩

/-- The same no-artifact call at time `ttlNanos`: the cached entry's age is
exactly the 10-minute threshold. -/
def c1EnvExpired : CallEnv :=
  ⟨⟨"", "p"⟩, .ok 0, .ok (), .ok (), .ok 0, (some 9, none), (none, none), ttlNanos⟩

set_option maxRecDepth 4000 in
/-- C1: the code's TTL comparison is inverted. Evaluating `ImportFrom` at
the failing inputs: with a 1 ns-old fallback entry (age < TTL) the
underlying resolver IS invoked and its result replaces the cached
descriptor, and with an entry aged exactly the TTL the stale entry is
returned and the underlying resolver is NOT invoked — the opposite of
"fresh when age < threshold", and the opposite of the code's own comment
"if the entry is less than 10 minutes old". -/
theorem c1_ttl_comparison_inverted_eval :
    (importFrom impRef c1EnvFresh c1State).underlyingCalled = true
    ∧ (importFrom impRef c1EnvFresh c1State).pkg = some 9
    ∧ (importFrom impRef c1EnvExpired c1State).underlyingCalled = false
    ∧ (importFrom impRef c1EnvExpired c1State).pkg = some 7 := by
  decide

/-! ## Claim C2 -/

/-- The n-th distinct import path used by the C2 counterexample run. -/
def c2Key (n : Nat) : String := String.mk [Char.ofNat (65 + n)]

/-- A no-artifact resolution of `c2Key n` whose underlying resolver
succeeds, so `ImportFrom` caches the result. -/
def c2Env (n : Nat) : CallEnv :=
  ⟨⟨"", c2Key n⟩, .ok 0, .ok (), .ok (), .ok 0, (some 1, none), (none, none), 0⟩

/-- The cache map after `n` successive `ImportFrom` resolutions of `n`
distinct import paths, starting from an empty cache (no intervening `New`,
hence no `cleanImporter` run). -/
def c2Imports : Nat → CacheMap
  | 0 => []
  | n + 1 => (importFrom impRef (c2Env n) ⟨c2Imports n, bdRef⟩).imports

set_option maxRecDepth 10000 in
/-- C2 counterexample: a sequence of 101 resolution operations
(`ImportFrom` calls) on 101 distinct paths leaves 101 entries in the cache
map — `ImportFrom` itself never evicts, so the ≤ 100 bound fails after an
operation of the sequence. -/
theorem c2_counterexample_insertions_exceed_100 :
    (c2Imports 101).length = 101 := by
  decide

/-- C2 amended: the capacity bound is enforced only by `cleanImporter`
(run by `New`, i.e. at importer construction), which evicts entries in
arbitrary order until at most 100 remain: its result always has exactly
`min (size, 100)` entries. `ImportFrom` itself inserts without evicting. -/
theorem c2_cleanImporter_bounds_cache (m : CacheMap) :
    (cleanImporter m).length = min m.length 100 := by
  induction m with
  | nil => simp [cleanImporter]
  | cons hd tl ih =>
    by_cases h : (hd :: tl).length ≤ 100
    · rw [cleanImporter, if_pos h, min_def, if_pos h]
    · rw [cleanImporter, if_neg h, ih]
      simp only [List.length_cons] at h
      rw [min_def, min_def]
      simp only [List.length_cons]
      rw [if_neg (show ¬ tl.length + 1 ≤ 100 by omega)]
      by_cases h2 : tl.length ≤ 100
      · rw [if_pos h2]; omega
      · rw [if_neg h2]

/-! ## Claim C3 -/

/-- C3: modification-time-gated caching on the artifact branch. First
resolution with a stale or absent entry decodes once; a second resolution
of the same path with unchanged artifact mtime is a cache hit returning
the same descriptor with no decode; a third resolution after the mtime
changed decodes again and stores the new mtime as the entry's stamp. -/
theorem c3_mtime_gated_decode
    (i : Importer) (st st2 st3 : ImpState) (env1 env2 env3 : CallEnv)
    (T T2 : Int) (p p2 : Nat)
    (hf : env1.find.filename ≠ "")
    (hs1 : env1.stat = .ok T)
    (hstale : (mapLookup st.imports env1.find.path).1.mtime ≠ T)
    (ho1 : env1.openRes = .ok ()) (hr1 : env1.readerRes = .ok ())
    (hd1 : env1.readRes = .ok p)
    (hst2 : st2.imports = (importFrom i env1 st).imports)
    (hf2 : env2.find = env1.find) (hs2 : env2.stat = .ok T)
    (hst3 : st3.imports = (importFrom i env2 st2).imports)
    (hf3 : env3.find = env1.find) (hs3 : env3.stat = .ok T2) (hT2 : T2 ≠ T)
    (ho3 : env3.openRes = .ok ()) (hr3 : env3.readerRes = .ok ())
    (hd3 : env3.readRes = .ok p2) :
    (importFrom i env1 st).decodeCount = 1
    ∧ (importFrom i env1 st).pkg = some p
    ∧ (importFrom i env2 st2).decodeCount = 0
    ∧ (importFrom i env2 st2).pkg = some p
    ∧ (importFrom i env3 st3).decodeCount = 1
    ∧ (importFrom i env3 st3).pkg = some p2
    ∧ mapLookup (importFrom i env3 st3).imports env1.find.path
        = (⟨some p2, T2⟩, true) := by
  have h1 := importFrom_decode_ok i env1 st T p hf hs1 hstale ho1 hr1 hd1
  have hlk2 : mapLookup st2.imports env2.find.path = (⟨some p, T⟩, true) := by
    rw [hst2, h1, hf2]
    exact mapLookup_mapInsert_self _ _ _
  have hf2' : env2.find.filename ≠ "" := by rw [hf2]; exact hf
  have h2 := importFrom_hit i env2 st2 T hf2' hs2 (by rw [hlk2])
  have himp2 : (importFrom i env2 st2).imports = st2.imports := by rw [h2]
  have hlk3 : mapLookup st3.imports env3.find.path = (⟨some p, T⟩, true) := by
    rw [hst3, himp2, hf3, ← hf2]
    exact hlk2
  have hm3 : (mapLookup st3.imports env3.find.path).1.mtime ≠ T2 := by
    rw [hlk3]
    exact Ne.symm hT2
  have hf3' : env3.find.filename ≠ "" := by rw [hf3]; exact hf
  have h3 := importFrom_decode_ok i env3 st3 T2 p2 hf3' hs3 hm3 ho3 hr3 hd3
  refine ⟨?_, ?_, ?_, ?_, ?_, ?_, ?_⟩
  · rw [h1]
  · rw [h1]
  · rw [h2]
  · rw [h2, hlk2]
  · rw [h3]
  · rw [h3]
  · rw [h3, ← hf3]
    exact mapLookup_mapInsert_self _ _ _

/-- First C3 call: artifact `"f"` for path `"p"`, mtime 5, decodes to 11. -/
def c3Env1 : CallEnv :=
  ⟨⟨"f", "p"⟩, .ok 5, .ok (), .ok (), .ok 11, (none, none), (none, none), 0⟩

/-- Second C3 call: unchanged mtime 5 (the decoder would yield 12, but must
not run). -/
def c3Env2 : CallEnv :=
  ⟨⟨"f", "p"⟩, .ok 5, .ok (), .ok (), .ok 12, (none, none), (none, none), 0⟩

/-- Third C3 call: mtime changed to 6, decodes to 13. -/
def c3Env3 : CallEnv :=
  ⟨⟨"f", "p"⟩, .ok 6, .ok (), .ok (), .ok 13, (none, none), (none, none), 0⟩

/-- The cache state after the first C3 call. -/
def c3St2 : ImpState := ⟨[("p", ⟨some 11, 5⟩)], bdRef⟩

/-- C3 witness: the three-call scenario at concrete inputs. -/
theorem c3_mtime_gated_decode_witness :
    (importFrom impRef c3Env1 ⟨[], bdRef⟩).decodeCount = 1
    ∧ (importFrom impRef c3Env1 ⟨[], bdRef⟩).pkg = some 11
    ∧ (importFrom impRef c3Env2 c3St2).decodeCount = 0
    ∧ (importFrom impRef c3Env2 c3St2).pkg = some 11
    ∧ (importFrom impRef c3Env3 c3St2).decodeCount = 1
    ∧ (importFrom impRef c3Env3 c3St2).pkg = some 13
    ∧ mapLookup (importFrom impRef c3Env3 c3St2).imports c3Env1.find.path
        = (⟨some 13, 6⟩, true) :=
  c3_mtime_gated_decode impRef ⟨[], bdRef⟩ c3St2 c3St2 c3Env1 c3Env2 c3Env3
    5 6 11 13 (by decide) (by decide) (by decide) (by decide) (by decide)
    (by decide) (by decide) (by decide) (by decide) (by decide) (by decide)
    (by decide) (by decide) (by decide) (by decide) (by decide)

/-! ## Claim C4 -/

/-- Concrete state for C4: a fallback entry for `"p"` (descriptor 7,
inserted at time 0) is present in the cache. -/
def c4State : ImpState := ⟨[("p", ⟨some 7, 0⟩)], bdRef⟩

/-- A no-artifact call at time 1 ns whose recomputation fails: the
underlying resolver returns (nil, "boom") and the source importer also
returns nil. -/
def c4Env : CallEnv :=
  ⟨⟨"", "p"⟩, .ok 0, .ok (), .ok (), .ok 0, (none, some "boom"), (none, none), 1⟩

set_option maxRecDepth 4000 in
/-- C4 counterexample: a previous cache entry for the canonical id exists
(descriptor 7), recomputation fails, yet `ImportFrom` returns a nil
descriptor together with the error — it does not serve the stale cached
descriptor. -/
theorem c4_counterexample_stale_not_served :
    mapLookup c4State.imports "p" = (⟨some 7, 0⟩, true)
    ∧ (importFrom impRef c4Env c4State).pkg = none
    ∧ (importFrom impRef c4Env c4State).err = some "boom" := by
  decide

/-- C4 amended: in the fallback path, when the existing entry is younger
than the TTL threshold and recomputation fails (underlying resolver and
source importer both return nil), the error is propagated with a nil
descriptor — the cached entry is not served, though it stays in the cache
unchanged. (An entry aged at or past the threshold is returned before
recomputation is attempted; see C1.) -/
theorem c4_fresh_entry_error_propagates
    (i : Importer) (st : ImpState) (env : CallEnv) (e : Entry)
    (ue : Option String)
    (hf : env.find.filename = "")
    (hl : mapLookup st.imports env.find.path = (e, true))
    (hage : env.now - e.mtime < ttlNanos)
    (hu : env.underlying = (none, ue))
    (hsrc : env.srcImp.1 = none) :
    (importFrom i env st).pkg = none
    ∧ (importFrom i env st).err = ue
    ∧ (importFrom i env st).imports = st.imports := by
  simp [importFrom, hf, hl, hu, hsrc, not_le.mpr hage]

/-- C4 witness: the amended behaviour at the concrete counterexample
input. -/
theorem c4_fresh_entry_error_propagates_witness :
    (importFrom impRef c4Env c4State).pkg = none
    ∧ (importFrom impRef c4Env c4State).err = some "boom"
    ∧ (importFrom impRef c4Env c4State).imports = c4State.imports :=
  c4_fresh_entry_error_propagates impRef c4State c4Env ⟨some 7, 0⟩ (some "boom")
    (by decide) (by decide) (by decide) (by decide) (by decide)

/-! ## Claim C5 -/

/-- C5 counterexample: with alternate root `/R`, GOOS `linux`, GOARCH
`amd64`, the rewrite of `/R/vendor/pkg/linux_amd64_race/foo.a` does not
produce the claimed `/R/pkg/linux-race/foo.a`. -/
theorem c5_counterexample_rewrite_output :
    joinPath "/R" "linux" "amd64" ["/R/vendor/pkg/linux_amd64_race/foo.a"]
      ≠ "/R/pkg/linux-race/foo.a" := by
  decide

/-- C5 amended: the rewrite strips the vendor segment and collapses
`linux_amd64` to `linux-amd64`, but the format string carries a trailing
slash before the reattached suffix, so the suffix lands in a separate
`-race` path segment after `pkg` and `linux-amd64` instead of forming
`linux-amd64-race` (and the arch is never dropped as the claimed
`linux-race` would require). -/
theorem c5_gb_rewrite_actual_output :
    joinPath "/R" "linux" "amd64" ["/R/vendor/pkg/linux_amd64_race/foo.a"]
      = "/R/pkg/linux-amd64/-race/foo.a" := by
  decide

/-! ## Claim C6 -/

/-- C6: on the artifact branch, a stat error and each error of the decode
chain (open, reader construction, decode) are returned to the caller
unmodified with a nil package, and the cache map is left exactly as it
was. -/
theorem c6_errors_propagate_cache_unchanged
    (i : Importer) (st : ImpState) (env : CallEnv)
    (hf : env.find.filename ≠ "") :
    (∀ e, env.stat = .error e →
      (importFrom i env st).err = some e
      ∧ (importFrom i env st).pkg = none
      ∧ (importFrom i env st).imports = st.imports)
    ∧ (∀ e T, env.stat = .ok T →
        (mapLookup st.imports env.find.path).1.mtime ≠ T →
        env.openRes = .error e →
        (importFrom i env st).err = some e
        ∧ (importFrom i env st).pkg = none
        ∧ (importFrom i env st).imports = st.imports)
    ∧ (∀ e T, env.stat = .ok T →
        (mapLookup st.imports env.find.path).1.mtime ≠ T →
        env.openRes = .ok () → env.readerRes = .error e →
        (importFrom i env st).err = some e
        ∧ (importFrom i env st).pkg = none
        ∧ (importFrom i env st).imports = st.imports)
    ∧ (∀ e T, env.stat = .ok T →
        (mapLookup st.imports env.find.path).1.mtime ≠ T →
        env.openRes = .ok () → env.readerRes = .ok () →
        env.readRes = .error e →
        (importFrom i env st).err = some e
        ∧ (importFrom i env st).pkg = none
        ∧ (importFrom i env st).imports = st.imports) := by
  refine ⟨?_, ?_, ?_, ?_⟩
  · intro e hs
    simp [importFrom, hf, hs]
  · intro e T hs hm ho
    simp [importFrom, hf, hs, hm, ho]
  · intro e T hs hm ho hr
    simp [importFrom, hf, hs, hm, ho, hr]
  · intro e T hs hm ho hr hd
    simp [importFrom, hf, hs, hm, ho, hr, hd]

/-- A C6 call whose stat fails. -/
def c6EnvStat : CallEnv :=
  ⟨⟨"f", "p"⟩, .error "stat failed", .ok (), .ok (), .ok 0,
    (none, none), (none, none), 0⟩

/-- A C6 call whose stat succeeds but whose decode fails. -/
def c6EnvRead : CallEnv :=
  ⟨⟨"f", "p"⟩, .ok 5, .ok (), .ok (), .error "decode failed",
    (none, none), (none, none), 0⟩

/-- C6 witness: stat failure and decode failure at concrete inputs. -/
theorem c6_errors_propagate_cache_unchanged_witness :
    ((importFrom impRef c6EnvStat ⟨[], bdRef⟩).err = some "stat failed"
      ∧ (importFrom impRef c6EnvStat ⟨[], bdRef⟩).pkg = none
      ∧ (importFrom impRef c6EnvStat ⟨[], bdRef⟩).imports = [])
    ∧ ((importFrom impRef c6EnvRead ⟨[], bdRef⟩).err = some "decode failed"
      ∧ (importFrom impRef c6EnvRead ⟨[], bdRef⟩).pkg = none
      ∧ (importFrom impRef c6EnvRead ⟨[], bdRef⟩).imports = []) :=
  ⟨(c6_errors_propagate_cache_unchanged impRef ⟨[], bdRef⟩ c6EnvStat
      (by decide)).1 "stat failed" (by decide),
    (c6_errors_propagate_cache_unchanged impRef ⟨[], bdRef⟩ c6EnvRead
      (by decide)).2.2.2 "decode failed" 5 (by decide) (by decide)
      (by decide) (by decide) (by decide)⟩

/-! ## Claim C7 -/

/-- A call whose artifact (mtime 5) fails to decode. -/
def c7Env : CallEnv :=
  ⟨⟨"f", "p"⟩, .ok 5, .ok (), .ok (), .error "corrupt",
    (none, none), (none, none), 0⟩

set_option maxRecDepth 4000 in
/-- C7 counterexample: after a decode failure for path `"p"` at artifact
mtime 5, an immediately repeated resolution with the same unchanged mtime
invokes the decoder again — the decoder runs twice for the same
(canonical id, modification time) pair. -/
theorem c7_counterexample_decode_retried :
    (importFrom impRef c7Env ⟨[], bdRef⟩).decodeCount = 1
    ∧ (importFrom impRef c7Env ⟨[], bdRef⟩).err = some "corrupt"
    ∧ (importFrom impRef c7Env
        ⟨(importFrom impRef c7Env ⟨[], bdRef⟩).imports, bdRef⟩).decodeCount
      = 1 := by
  decide

/-- C7 amended: a decode failure does not update the cache, so every
subsequent resolution of the same id while the artifact's mtime still
differs from the stored stamp re-attempts the decode; there is no
negative caching of DecodeFailed. -/
theorem c7_decode_failure_leaves_cache
    (i : Importer) (st : ImpState) (env : CallEnv) (T : Int) (d : String)
    (hf : env.find.filename ≠ "") (hs : env.stat = .ok T)
    (hm : (mapLookup st.imports env.find.path).1.mtime ≠ T)
    (ho : env.openRes = .ok ()) (hr : env.readerRes = .ok ())
    (hd : env.readRes = .error d) :
    (importFrom i env st).imports = st.imports
    ∧ (importFrom i env st).decodeCount = 1
    ∧ (importFrom i env st).err = some d := by
  simp [importFrom, hf, hs, hm, ho, hr, hd]

/-- C7 witness: the amended behaviour at the concrete input. -/
theorem c7_decode_failure_leaves_cache_witness :
    (importFrom impRef c7Env ⟨[], bdRef⟩).imports = []
    ∧ (importFrom impRef c7Env ⟨[], bdRef⟩).decodeCount = 1
    ∧ (importFrom impRef c7Env ⟨[], bdRef⟩).err = some "corrupt" :=
  c7_decode_failure_leaves_cache impRef ⟨[], bdRef⟩ c7Env 5 "corrupt"
    (by decide) (by decide) (by decide) (by decide) (by decide) (by decide)

/-! ## Claim C8 -/

/-- C8: on every exit path of `ImportFrom` — fallback cache hit, fallback
recomputation (success or failure), stat error, every decode-chain error,
decode success, and artifact cache hit — the shared `build.Default` ends
up exactly as it was before the call, even though the per-call
configuration (context fields and path hooks) was installed while path
computation ran. -/
theorem c8_build_default_restored (i : Importer) (env : CallEnv)
    (st : ImpState) :
    (importFrom i env st).buildDefault = st.buildDefault
    ∧ (importFrom i env st).mangledDuringCall
      = mangleDefault i st.buildDefault := by
  unfold importFrom
  dsimp only
  constructor <;> (repeat' split) <;> rfl

/-! ## Claim C9 -/

/-- C9: Policy B keeps a per-source-directory record (`installedMap`) of
the last newest source modification time considered; when a record for the
computed target directory exists with a non-zero mtime and the directory's
newest `.go` modification time is unchanged from that record,
`tryInstallPackage` does not invoke the external build command — on any
branch (artifact newer than sources, or the recorded-mtime check). -/
theorem c9_no_rebuild_when_sources_unchanged
    (ctx : GbContext) (env : InstallEnv) (m : InstalledMap)
    (pkgPath srcDir : String) (info : InstalledInfo)
    (hrec : imLookup m (installTarget ctx env pkgPath srcDir) = some info)
    (hnz : info.mtime ≠ 0)
    (hunch : env.newestGo (installTarget ctx env pkgPath srcDir)
      = (info.mtime, none)) :
    (tryInstallPackage ctx env m pkgPath srcDir).2 = false := by
  unfold tryInstallPackage
  dsimp only
  rw [hunch, hrec]
  dsimp only
  rw [if_neg (by simp [hnz])]
  rcases hrel : filepathRel (pathJoin [ctx.GOPATH, "src"])
      (installTarget ctx env pkgPath srcDir) with _ | gprel
  · simp only [hrel]
    rw [if_neg (by simp [hnz])]
  · simp only [hrel]
    by_cases hgt : env.modTimeOf
        (pathJoin [ctx.GOPATH, "pkg", ctx.GOOS ++ "_" ++ ctx.GOARCH, gprel ++ ".a"])
        > info.mtime
    · rw [if_pos hgt]
    · rw [if_neg hgt]
      dsimp only
      rw [if_neg (by simp [hnz])]

/-- A concrete gb context for the C9 witness. -/
def c9Ctx : GbContext := ⟨"/g", "linux", "amd64"⟩

/-- A concrete filesystem for the C9 witness: no vendored candidate
directories, newest `.go` mtime 5 everywhere, no readable artifacts. -/
def c9Env : InstallEnv :=
  ⟨fun _ => false, fun _ => (5, none), fun _ => 0⟩

/-- The C9 witness record map: target `/g/src/p` was last considered at
newest source mtime 5. -/
def c9Map : InstalledMap := [("/g/src/p", ⟨"/g/src/p", 5⟩)]

/-- C9 witness: at the concrete inputs, the repeated resolution does not
invoke the build command. -/
theorem c9_no_rebuild_when_sources_unchanged_witness :
    (tryInstallPackage c9Ctx c9Env c9Map "p" "/d").2 = false :=
  c9_no_rebuild_when_sources_unchanged c9Ctx c9Env c9Map "p" "/d"
    ⟨"/g/src/p", 5⟩ (by decide) (by decide) (by decide)

/-! ## Claim C10 -/

/-- A no-artifact call for a new path `"q"` whose underlying resolver
fails with an error while the source importer succeeds with descriptor 3
(and its own error, which the code discards). -/
def c10Env : CallEnv :=
  ⟨⟨"", "q"⟩, .ok 0, .ok (), .ok (), .ok 0,
    (none, some "underlying failed"), (some 3, some "src error"), 5⟩

set_option maxRecDepth 4000 in
/-- C10: in the fallback path `ImportFrom` can return a non-nil descriptor
together with a non-nil error in the same call — the source importer's
descriptor is cached (stamped with the call time) and returned while the
underlying resolver's error is returned alongside it. -/
theorem c10_pkg_and_error_together :
    (importFrom impRef c10Env ⟨[], bdRef⟩).pkg = some 3
    ∧ (importFrom impRef c10Env ⟨[], bdRef⟩).err = some "underlying failed"
    ∧ mapLookup (importFrom impRef c10Env ⟨[], bdRef⟩).imports "q"
      = (⟨some 3, 5⟩, true) := by
  decide
